import Mathlib

/- Verification of the photoelectric-effect laboratory simulator (src/app.js).

   The physics / measurement-statistics / regression core of the simulator is
   embedded below over the rational numbers: every numeric literal of the
   source (4.136e-15, 3e8, 2.833, 0.001, ...) is an exact decimal, so all of
   the source arithmetic is represented exactly.  Each call to Math.random()
   is modelled by an explicit parameter ranging over [0, 1); the fixed batch
   of 1000 draws in takePrecisionMeasurement is modelled by a draw function
   ℕ → ℚ.  Rational division by zero is total and yields 0 in Lean; wherever
   that convention could be reached the surrounding theorems show either that
   the divisor is nonzero or that the source would have produced NaN there. -/

namespace NivPhoto

/-- Planck constant in eV·s (src/app.js line 9). -/
def planckConstant : ℚ := 4.136e-15

/-- Speed of light in m/s (src/app.js line 10). -/
def speedOfLight : ℚ := 3e8

/-- Elementary charge in C (src/app.js line 11). -/
def elementaryCharge : ℚ := 1.602e-19

/-- Resolved light data: wavelength in nm, frequency in Hz, photon energy in eV. -/
structure WavelengthData where
  wavelength : ℚ
  frequency : ℚ
  energy : ℚ
deriving DecidableEq

/-- The four fixed laboratory filters (src/app.js lines 15-20). -/
inductive FilterKind
  | blue
  | green
  | yellow
  | orange
deriving DecidableEq

/-- Filter table with the baked wavelength/frequency/energy values
(src/app.js lines 16-19; the display colors are presentation-only and
are not modelled). -/
def filters : FilterKind → WavelengthData
  | .blue => { wavelength := 438, frequency := 6.849e14, energy := 2.833 }
  | .green => { wavelength := 565, frequency := 5.310e14, energy := 2.196 }
  | .yellow => { wavelength := 578, frequency := 5.190e14, energy := 2.147 }
  | .orange => { wavelength := 598, frequency := 5.017e14, energy := 2.075 }

/-- A light source is either one of the fixed filters or a custom wavelength in
nm (the tagged choice behind `state.currentFilter` / `state.customWavelength`). -/
inductive LightSource
  | filter (kind : FilterKind)
  | custom (wavelength : ℚ)
deriving DecidableEq

/-- getCurrentWavelengthData (src/app.js lines 318-332): for a custom
wavelength, frequency = c / (λ·1e-9) and energy = h·frequency; for a fixed
filter, the baked table values. -/
def getCurrentWavelengthData : LightSource → WavelengthData
  | .custom w =>
      let frequency := speedOfLight / (w * 1e-9)
      let energy := planckConstant * frequency
      { wavelength := w, frequency := frequency, energy := energy }
  | .filter k => filters k

/-- A photocathode material (src/app.js lines 23-31; color omitted). -/
structure Material where
  name : String
  symbol : String
  workFunction : ℚ
deriving DecidableEq

/-- Photocathode materials database (src/app.js lines 23-31). -/
def materials : List Material :=
  [{ name := "Cesium", symbol := "Cs", workFunction := 2.10 },
   { name := "Sodium", symbol := "Na", workFunction := 2.28 },
   { name := "Potassium", symbol := "K", workFunction := 2.30 },
   { name := "Aluminum", symbol := "Al", workFunction := 4.08 },
   { name := "Copper", symbol := "Cu", workFunction := 4.70 },
   { name := "Silver", symbol := "Ag", workFunction := 4.73 },
   { name := "Gold", symbol := "Au", workFunction := 5.10 }]

/-- The object returned by calculatePhysics (src/app.js lines 368-380). -/
structure PhysicsResult where
  wavelength : ℚ
  frequency : ℚ
  photonEnergy : ℚ
  workFunction : ℚ
  maxKineticEnergy : ℚ
  stoppingPotential : ℚ
  thresholdFrequency : ℚ
  thresholdWavelength : ℚ
  current : ℚ
  isEmission : Bool
  saturationCurrent : ℚ
deriving DecidableEq

/-- The current value computed by src/app.js lines 348-362 before the noise
factor of line 365 is applied: zero unless emission occurs and the voltage is
at least minus the stopping potential; 15 μA flat saturation in forward bias;
a linear ramp 15·max(0, (V + Vs)/Vs) in reverse bias. -/
def rawCurrent (isEmission : Bool) (stoppingPotential voltage : ℚ) : ℚ :=
  if isEmission = true ∧ -stoppingPotential ≤ voltage then
    if 0 ≤ voltage then 15
    else 15 * max 0 ((voltage + stoppingPotential) / stoppingPotential)
  else 0

/-- calculatePhysics (src/app.js lines 334-381), with the selected material's
work function, the light source and the applied voltage passed explicitly and
`rand` standing for the Math.random() draw of line 365. -/
def calculatePhysics (workFunction : ℚ) (light : LightSource) (voltage rand : ℚ) :
    PhysicsResult :=
  let wavelengthData := getCurrentWavelengthData light
  let photonEnergy := wavelengthData.energy
  let maxKineticEnergy := max 0 (photonEnergy - workFunction)
  let stoppingPotential := maxKineticEnergy
  let thresholdFrequency := workFunction / planckConstant
  let thresholdWavelength := speedOfLight / thresholdFrequency * 1e9
  let isEmission : Bool := decide (workFunction < photonEnergy)
  let current : ℚ :=
    if isEmission = true ∧ -stoppingPotential ≤ voltage then
      (if 0 ≤ voltage then (15 : ℚ)
       else 15 * max 0 ((voltage + stoppingPotential) / stoppingPotential)) *
        (1 + (rand - 0.5) * 0.001)
    else 0
  { wavelength := wavelengthData.wavelength
    frequency := wavelengthData.frequency
    photonEnergy := photonEnergy
    workFunction := workFunction
    maxKineticEnergy := maxKineticEnergy
    stoppingPotential := stoppingPotential
    thresholdFrequency := thresholdFrequency
    thresholdWavelength := thresholdWavelength
    current := current
    isEmission := isEmission
    saturationCurrent := if isEmission then 15 else 0 }

/-- A stored frequency data point (src/app.js lines 544-549); `frequency` is
stored in units of 10^14 Hz exactly as in the source. -/
structure FreqPoint where
  wavelength : ℚ
  frequency : ℚ
  stoppingPotential : ℚ
  filter : String
deriving DecidableEq

/-- The point pushed by updateFrequencyData (src/app.js lines 544-549). -/
def newFreqPoint (physics : PhysicsResult) (currentFilter : String) : FreqPoint :=
  { wavelength := physics.wavelength
    frequency := physics.frequency / 1e14
    stoppingPotential := physics.stoppingPotential
    filter := currentFilter }

/-- updateFrequencyData (src/app.js lines 537-564), restricted to its effect on
the frequencyData collection (chart/table refreshes are presentation-only). -/
def updateFrequencyData (physics : PhysicsResult) (currentFilter : String)
    (frequencyData : List FreqPoint) : List FreqPoint :=
  if physics.isEmission = false then frequencyData
  else if frequencyData.any fun d => decide (|d.wavelength - physics.wavelength| < 1) then
    frequencyData
  else frequencyData ++ [newFreqPoint physics currentFilter]

/-- The regression output written to the display by calculatePlanckConstant
(src/app.js lines 582-588). -/
structure RegressionResult where
  slope : ℚ
  calculatedH : ℚ
  accuracy : ℚ
deriving DecidableEq

/-- The regression abscissa: the stored frequency converted back to Hz
(src/app.js line 574). -/
def regressionX (d : FreqPoint) : ℚ := d.frequency * 1e14

/-- The denominator n·Σx² − (Σx)² of the slope formula (src/app.js line 582). -/
def regressionDenominator (data : List FreqPoint) : ℚ :=
  (data.length : ℚ) * (data.map fun d => regressionX d * regressionX d).sum -
    (data.map regressionX).sum * (data.map regressionX).sum

/-- calculatePlanckConstant (src/app.js lines 566-589): none models the early
return when fewer than two points are stored; otherwise the least-squares
slope, calculatedH = slope·e and accuracy = calculatedH/h·100 are computed
and displayed unconditionally. -/
def calculatePlanckConstant (data : List FreqPoint) : Option RegressionResult :=
  if data.length < 2 then none
  else
    let n : ℚ := data.length
    let sumX := (data.map regressionX).sum
    let sumY := (data.map fun d => d.stoppingPotential).sum
    let sumXY := (data.map fun d => regressionX d * d.stoppingPotential).sum
    let sumX2 := (data.map fun d => regressionX d * regressionX d).sum
    let slope := (n * sumXY - sumX * sumY) / (n * sumX2 - sumX * sumX)
    let calculatedH := slope * elementaryCharge
    let accuracy := calculatedH / planckConstant * 100
    some { slope := slope, calculatedH := calculatedH, accuracy := accuracy }

/-- The fixed number of samples per measurement (src/app.js line 458). -/
def numMeasurements : ℕ := 1000

/-- The simulated sample batch of src/app.js lines 462-465: one sample
current + (r − 0.5)·0.001·current per random draw r. -/
def sampleMeasurements (current : ℚ) (draws : List ℚ) : List ℚ :=
  draws.map fun r => current + (r - 0.5) * 0.001 * current

/-- Mean and population variance of a sample batch. -/
structure MeasurementStats where
  mean : ℚ
  variance : ℚ
deriving DecidableEq

/-- The statistics of src/app.js lines 468-469: mean = Σ/N and population
variance = Σ(b − mean)²/N, dividing by the number of samples N. -/
def measurementStats (current : ℚ) (draws : List ℚ) : MeasurementStats :=
  let measurements := sampleMeasurements current draws
  let mean := measurements.sum / (draws.length : ℚ)
  let variance := (measurements.map fun b => (b - mean) ^ 2).sum / (draws.length : ℚ)
  { mean := mean, variance := variance }

/-- standardDeviation = sqrt(variance) (src/app.js line 470), as a real number
since the square root of a rational is in general irrational. -/
noncomputable def standardDeviation (current : ℚ) (draws : List ℚ) : ℝ :=
  Real.sqrt ((measurementStats current draws).variance : ℝ)

/-- standardError = standardDeviation / sqrt(N) (src/app.js line 471). -/
noncomputable def standardError (current : ℚ) (draws : List ℚ) : ℝ :=
  standardDeviation current draws / Real.sqrt (draws.length : ℝ)

/-- A stored measurement record (src/app.js lines 474-483); the Date timestamp
is carried as an opaque natural number. -/
structure MeasurementRecord where
  voltage : ℚ
  current : ℚ
  standardError : ℝ
  measurements : ℕ
  material : String
  wavelength : ℚ
  filter : String
  timestamp : ℕ

/-- The session state touched by the measurement path: the selected material,
filter tag and light source, the applied voltage, the experiment-active flag,
and the data stores (src/app.js lines 33-47). -/
structure LabState where
  currentMaterial : Material
  currentFilter : String
  light : LightSource
  voltage : ℚ
  isExperimentActive : Bool
  measurementCount : ℕ
  experimentData : List MeasurementRecord
  ivData : List (ℚ × ℚ)
  frequencyData : List FreqPoint

/-- takePrecisionMeasurement (src/app.js lines 454-502): early return when no
experiment is active; otherwise recompute physics, draw the fixed batch of
1000 samples (draw i modelled as rand i), push the record and the I-V point,
bump the counter and feed updateFrequencyData.  Display and chart updates are
presentation-only and not modelled. -/
noncomputable def takePrecisionMeasurement (st : LabState) (physicsRand : ℚ)
    (rand : ℕ → ℚ) (timestamp : ℕ) : LabState :=
  if st.isExperimentActive = false then st
  else
    let physics := calculatePhysics st.currentMaterial.workFunction st.light st.voltage
      physicsRand
    let draws := (List.range numMeasurements).map rand
    let stats := measurementStats physics.current draws
    let measurementData : MeasurementRecord :=
      { voltage := st.voltage
        current := stats.mean
        standardError := standardError physics.current draws
        measurements := numMeasurements
        material := st.currentMaterial.name
        wavelength := physics.wavelength
        filter := st.currentFilter
        timestamp := timestamp }
    { st with
      experimentData := st.experimentData ++ [measurementData]
      measurementCount := st.measurementCount + 1
      ivData := st.ivData ++ [(st.voltage, stats.mean)]
      frequencyData := updateFrequencyData physics st.currentFilter st.frequencyData }

/-- One CSV row of exportLaboratoryData (src/app.js lines 966-979), with each
column carried as its underlying value (string formatting is not modelled). -/
structure ExportRow where
  timestamp : ℕ
  material : String
  workFunction : ℚ
  filter : String
  wavelength : ℚ
  frequency : ℚ
  photonEnergy : ℚ
  appliedVoltage : ℚ
  current : ℚ
  standardError : ℝ
  measurementsCount : ℕ
  stoppingPotential : ℚ

/-- The row built for one stored record inside the export loop (src/app.js
lines 962-979): wavelengthData and physics are recomputed from the CURRENT
state on every iteration, with `physicsRand` the Math.random() draw of that
iteration's calculatePhysics call. -/
def exportRow (st : LabState) (physicsRand : ℚ) (record : MeasurementRecord) :
    ExportRow :=
  let wavelengthData := getCurrentWavelengthData st.light
  let physics := calculatePhysics st.currentMaterial.workFunction st.light st.voltage
    physicsRand
  { timestamp := record.timestamp
    material := record.material
    workFunction := st.currentMaterial.workFunction
    filter := record.filter
    wavelength := record.wavelength
    frequency := wavelengthData.frequency
    photonEnergy := wavelengthData.energy
    appliedVoltage := record.voltage
    current := record.current
    standardError := record.standardError
    measurementsCount := record.measurements
    stoppingPotential := physics.stoppingPotential }

/-- The main CSV section of exportLaboratoryData (src/app.js lines 962-981):
one row per stored record, in order; rand i is the random draw consumed by the
calculatePhysics call of iteration i. -/
def exportLaboratoryData (st : LabState) (rand : ℕ → ℚ) : List ExportRow :=
  st.experimentData.enum.map fun p => exportRow st (rand p.1) p.2

/-- The first synthetic regression point of the spec's recovery test: the blue
frequency 6.849e14 Hz with stopping potential from Einstein's equation for
φ = 2.10 eV (0.7327464 = 4.136e-15 · 6.849e14 − 2.10). -/
def syntheticPoint1 : FreqPoint :=
  { wavelength := 438, frequency := 6.849, stoppingPotential := 0.7327464,
    filter := "blue" }

/-- The second synthetic regression point: the green frequency 5.310e14 Hz with
stopping potential 0.096216 = 4.136e-15 · 5.310e14 − 2.10. -/
def syntheticPoint2 : FreqPoint :=
  { wavelength := 565, frequency := 5.310, stoppingPotential := 0.096216,
    filter := "green" }

/-- A point sharing the frequency of syntheticPoint1, used to exhibit the
zero regression denominator. -/
def degeneratePoint : FreqPoint :=
  { wavelength := 438, frequency := 6.849, stoppingPotential := 0.5,
    filter := "blue" }

/-- The physics of Cesium under the blue filter at zero volts (emitting). -/
def bluePhysics : PhysicsResult := calculatePhysics 2.10 (.filter .blue) 0 0.5

/-- An idle session state: experiment inactive, all stores empty. -/
def inactiveState : LabState :=
  { currentMaterial := { name := "Cesium", symbol := "Cs", workFunction := 2.10 }
    currentFilter := "blue"
    light := .filter .blue
    voltage := 0
    isExperimentActive := false
    measurementCount := 0
    experimentData := []
    ivData := []
    frequencyData := [] }

/-! Projection lemmas: the fields of calculatePhysics as plain equations. -/

theorem calculatePhysics_photonEnergy (wf : ℚ) (l : LightSource) (v r : ℚ) :
    (calculatePhysics wf l v r).photonEnergy = (getCurrentWavelengthData l).energy := rfl

theorem calculatePhysics_isEmission (wf : ℚ) (l : LightSource) (v r : ℚ) :
    (calculatePhysics wf l v r).isEmission
      = decide (wf < (getCurrentWavelengthData l).energy) := rfl

theorem calculatePhysics_maxKineticEnergy (wf : ℚ) (l : LightSource) (v r : ℚ) :
    (calculatePhysics wf l v r).maxKineticEnergy
      = max 0 ((getCurrentWavelengthData l).energy - wf) := rfl

theorem calculatePhysics_stoppingPotential (wf : ℚ) (l : LightSource) (v r : ℚ) :
    (calculatePhysics wf l v r).stoppingPotential
      = max 0 ((getCurrentWavelengthData l).energy - wf) := rfl

theorem calculatePhysics_current (wf : ℚ) (l : LightSource) (v r : ℚ) :
    (calculatePhysics wf l v r).current
      = if (calculatePhysics wf l v r).isEmission = true ∧
            -(calculatePhysics wf l v r).stoppingPotential ≤ v then
          (if 0 ≤ v then (15 : ℚ)
           else 15 * max 0 ((v + (calculatePhysics wf l v r).stoppingPotential) /
              (calculatePhysics wf l v r).stoppingPotential)) * (1 + (r - 0.5) * 0.001)
        else 0 := rfl

theorem rawCurrent_def (e : Bool) (sp v : ℚ) :
    rawCurrent e sp v
      = if e = true ∧ -sp ≤ v then
          if 0 ≤ v then 15 else 15 * max 0 ((v + sp) / sp)
        else 0 := rfl

/-- The final current is the pre-noise current times the ±0.05% noise factor of
src/app.js line 365 (when the emission guard fails both sides are zero). -/
theorem calculatePhysics_current_eq_raw (wf : ℚ) (l : LightSource) (v r : ℚ) :
    (calculatePhysics wf l v r).current
      = rawCurrent (calculatePhysics wf l v r).isEmission
          (calculatePhysics wf l v r).stoppingPotential v * (1 + (r - 0.5) * 0.001) := by
  rw [calculatePhysics_current, rawCurrent_def]
  by_cases h : (calculatePhysics wf l v r).isEmission = true ∧
      -(calculatePhysics wf l v r).stoppingPotential ≤ v
  · rw [if_pos h, if_pos h]
  · rw [if_neg h, if_neg h, zero_mul]

/-- C1: for any work function φ ≥ 0 and custom wavelength λ > 0,
calculatePhysics returns photonEnergy = h·c/λ with h = 4.136e-15 eV·s and
c = 3e8 m/s (λ converted from nm to m); isEmission holds iff photonEnergy
strictly exceeds φ (false at exact equality); maxKineticEnergy =
max(0, photonEnergy − φ), hence never negative; and stoppingPotential is
numerically equal to maxKineticEnergy. -/
theorem c1_photon_energy_and_emission (wf lam voltage rand : ℚ)
    (_hwf : 0 ≤ wf) (_hlam : 0 < lam) :
    (calculatePhysics wf (.custom lam) voltage rand).photonEnergy
        = 4.136e-15 * 3e8 / (lam * 1e-9) ∧
    ((calculatePhysics wf (.custom lam) voltage rand).isEmission = true ↔
      wf < (calculatePhysics wf (.custom lam) voltage rand).photonEnergy) ∧
    ((calculatePhysics wf (.custom lam) voltage rand).photonEnergy = wf →
      (calculatePhysics wf (.custom lam) voltage rand).isEmission = false) ∧
    (calculatePhysics wf (.custom lam) voltage rand).maxKineticEnergy
        = max 0 ((calculatePhysics wf (.custom lam) voltage rand).photonEnergy - wf) ∧
    0 ≤ (calculatePhysics wf (.custom lam) voltage rand).maxKineticEnergy ∧
    (calculatePhysics wf (.custom lam) voltage rand).stoppingPotential
        = (calculatePhysics wf (.custom lam) voltage rand).maxKineticEnergy := by
  refine ⟨?_, ?_, ?_, rfl, ?_, rfl⟩
  · show planckConstant * (speedOfLight / (lam * 1e-9)) = _
    rw [mul_div_assoc, planckConstant.eq_def, speedOfLight.eq_def]
  · simp [calculatePhysics_isEmission, calculatePhysics_photonEnergy]
  · intro h
    rw [calculatePhysics_photonEnergy] at h
    rw [calculatePhysics_isEmission, h]
    simp
  · exact le_max_left 0 _

/-- Witness for C1 at Cesium's work function and the 438 nm custom wavelength. -/
theorem c1_photon_energy_and_emission_witness :
    (calculatePhysics 2.10 (.custom 438) 0 0.5).photonEnergy
        = 4.136e-15 * 3e8 / (438 * 1e-9) ∧
    ((calculatePhysics 2.10 (.custom 438) 0 0.5).isEmission = true ↔
      2.10 < (calculatePhysics 2.10 (.custom 438) 0 0.5).photonEnergy) ∧
    ((calculatePhysics 2.10 (.custom 438) 0 0.5).photonEnergy = 2.10 →
      (calculatePhysics 2.10 (.custom 438) 0 0.5).isEmission = false) ∧
    (calculatePhysics 2.10 (.custom 438) 0 0.5).maxKineticEnergy
        = max 0 ((calculatePhysics 2.10 (.custom 438) 0 0.5).photonEnergy - 2.10) ∧
    0 ≤ (calculatePhysics 2.10 (.custom 438) 0 0.5).maxKineticEnergy ∧
    (calculatePhysics 2.10 (.custom 438) 0 0.5).stoppingPotential
        = (calculatePhysics 2.10 (.custom 438) 0 0.5).maxKineticEnergy :=
  c1_photon_energy_and_emission 2.10 438 0 0.5 (by norm_num) (by norm_num)

/-- C2: in an emitting state the stopping potential is positive and the
pre-noise current is 15 μA for voltage ≥ 0, 15·max(0, (V + Vs)/Vs) for
−Vs ≤ V < 0, and 0 (before and after noise) for V ≤ −Vs; after the ±0.05%
noise the current at V = 0 is within ±0.1% of 15 μA; with no emission the
current is 0 at every voltage. -/
theorem c2_current_model (wf : ℚ) (light : LightSource) (voltage rand : ℚ)
    (hr0 : 0 ≤ rand) (hr1 : rand < 1) :
    ((calculatePhysics wf light voltage rand).isEmission = true →
      0 < (calculatePhysics wf light voltage rand).stoppingPotential ∧
      (0 ≤ voltage →
        rawCurrent true (calculatePhysics wf light voltage rand).stoppingPotential voltage
          = 15) ∧
      (-(calculatePhysics wf light voltage rand).stoppingPotential ≤ voltage →
        voltage < 0 →
        rawCurrent true (calculatePhysics wf light voltage rand).stoppingPotential voltage
          = 15 * max 0
              ((voltage + (calculatePhysics wf light voltage rand).stoppingPotential) /
                (calculatePhysics wf light voltage rand).stoppingPotential)) ∧
      (voltage ≤ -(calculatePhysics wf light voltage rand).stoppingPotential →
        rawCurrent true (calculatePhysics wf light voltage rand).stoppingPotential voltage
            = 0 ∧
        (calculatePhysics wf light voltage rand).current = 0) ∧
      (voltage = 0 →
        |(calculatePhysics wf light voltage rand).current - 15| ≤ 15 * 0.001)) ∧
    ((calculatePhysics wf light voltage rand).isEmission = false →
      (calculatePhysics wf light voltage rand).current = 0) := by
  constructor
  · intro he
    have hlt : wf < (getCurrentWavelengthData light).energy := by
      have h := calculatePhysics_isEmission wf light voltage rand
      rw [he] at h
      exact of_decide_eq_true h.symm
    have hVs : 0 < (calculatePhysics wf light voltage rand).stoppingPotential := by
      rw [calculatePhysics_stoppingPotential]
      exact lt_of_lt_of_le (sub_pos.mpr hlt) (le_max_right 0 _)
    have hrawfwd : ∀ _ : 0 ≤ voltage,
        rawCurrent true (calculatePhysics wf light voltage rand).stoppingPotential voltage
          = 15 := by
      intro hv
      rw [rawCurrent_def, if_pos ⟨rfl, le_trans (neg_nonpos.mpr hVs.le) hv⟩, if_pos hv]
    refine ⟨hVs, hrawfwd, ?_, ?_, ?_⟩
    · intro hge hneg
      rw [rawCurrent_def, if_pos ⟨rfl, hge⟩, if_neg (not_le.mpr hneg)]
    · intro hle
      have hvneg : voltage < 0 := lt_of_le_of_lt hle (neg_lt_zero.mpr hVs)
      have hraw0 : rawCurrent true
          (calculatePhysics wf light voltage rand).stoppingPotential voltage = 0 := by
        by_cases hge : -(calculatePhysics wf light voltage rand).stoppingPotential ≤ voltage
        · have hsum : voltage + (calculatePhysics wf light voltage rand).stoppingPotential
              = 0 := by
            have hv : voltage
                = -(calculatePhysics wf light voltage rand).stoppingPotential :=
              le_antisymm hle hge
            linarith
          rw [rawCurrent_def, if_pos ⟨rfl, hge⟩, if_neg (not_le.mpr hvneg), hsum, zero_div]
          simp
        · rw [rawCurrent_def, if_neg fun h => hge h.2]
      refine ⟨hraw0, ?_⟩
      rw [calculatePhysics_current_eq_raw, he, hraw0, zero_mul]
    · intro hv0
      subst hv0
      rw [calculatePhysics_current_eq_raw, he, hrawfwd le_rfl]
      rw [abs_le]
      constructor <;> nlinarith
  · intro he
    rw [calculatePhysics_current_eq_raw, he, rawCurrent_def,
      if_neg fun h => Bool.false_ne_true h.1, zero_mul]

/-- Witness for C2: Cesium under the blue filter at V = 0 with draw 1/2. -/
theorem c2_current_model_witness :
    0 < (calculatePhysics 2.10 (.filter .blue) 0 0.5).stoppingPotential ∧
    rawCurrent true (calculatePhysics 2.10 (.filter .blue) 0 0.5).stoppingPotential 0
        = 15 ∧
    |(calculatePhysics 2.10 (.filter .blue) 0 0.5).current - 15| ≤ 15 * 0.001 := by
  have h := c2_current_model 2.10 (.filter .blue) 0 0.5 (by norm_num) (by norm_num)
  have he : (calculatePhysics 2.10 (.filter .blue) 0 0.5).isEmission = true := by
    rw [calculatePhysics_isEmission]
    norm_num [getCurrentWavelengthData, filters]
  exact ⟨(h.1 he).1, (h.1 he).2.1 le_rfl, (h.1 he).2.2.2.2 rfl⟩

/-- C3: calculatePlanckConstant implements slope = (nΣxy − ΣxΣy)/(nΣx² − (Σx)²),
calculatedH = slope·1.602e-19 and accuracy = calculatedH/4.136e-15·100, but on
the two synthetic points whose stopping potentials come exactly from Einstein's
equation at 6.849e14 and 5.310e14 Hz the slope it recovers IS already
h = 4.136e-15 eV·s, so after the extra multiplication by the elementary charge
the reported accuracy is 1.602e-17 % — nowhere near the claimed ≈100%. -/
theorem c3_planck_fit_accuracy_bug :
    syntheticPoint1.stoppingPotential
        = planckConstant * regressionX syntheticPoint1 - 2.10 ∧
    syntheticPoint2.stoppingPotential
        = planckConstant * regressionX syntheticPoint2 - 2.10 ∧
    calculatePlanckConstant [syntheticPoint1, syntheticPoint2]
        = some { slope := 4.136e-15, calculatedH := 4.136e-15 * 1.602e-19,
                 accuracy := 1.602e-17 } ∧
    (1.602e-17 : ℚ) < 1 := by
  refine ⟨?_, ?_, ?_, by norm_num⟩
  · norm_num [syntheticPoint1, regressionX, planckConstant]
  · norm_num [syntheticPoint2, regressionX, planckConstant]
  · norm_num [calculatePlanckConstant, syntheticPoint1, syntheticPoint2, regressionX,
      elementaryCharge, planckConstant]

/-- C4: with a single point calculatePlanckConstant returns without computing,
but with two points of identical frequency it does NOT detect the zero
denominator nΣx² − (Σx)²: the guard only checks the point count, so the
division is performed (0/0, NaN in JavaScript) and a result is still produced
and displayed instead of an explicit non-computable report. -/
theorem c4_regression_degenerate_bug :
    calculatePlanckConstant [syntheticPoint1] = none ∧
    calculatePlanckConstant [syntheticPoint1, degeneratePoint]
        = some { slope := 0, calculatedH := 0, accuracy := 0 } ∧
    regressionDenominator [syntheticPoint1, degeneratePoint] = 0 := by
  refine ⟨rfl, ?_, ?_⟩
  · norm_num [calculatePlanckConstant, syntheticPoint1, degeneratePoint, regressionX,
      elementaryCharge, planckConstant]
  · norm_num [regressionDenominator, syntheticPoint1, degeneratePoint, regressionX]

/-- The sample-batch sum splits into N·current plus the sum of the noises. -/
theorem sampleMeasurements_sum (c : ℚ) (rs : List ℚ) :
    (sampleMeasurements c rs).sum
      = (rs.length : ℚ) * c + (rs.map fun r => (r - 0.5) * 0.001 * c).sum := by
  induction rs with
  | nil => simp [sampleMeasurements]
  | cons a t ih =>
      simp only [sampleMeasurements, List.map_cons, List.sum_cons, List.length_cons] at ih ⊢
      rw [ih]
      push_cast
      ring

/-- With every draw in [0, 1) and a nonnegative current, the total noise is at
most N·0.0005·current in absolute value. -/
theorem noise_sum_abs_le (c : ℚ) (hc : 0 ≤ c) (rs : List ℚ)
    (hd : ∀ r ∈ rs, 0 ≤ r ∧ r < 1) :
    |(rs.map fun r => (r - 0.5) * 0.001 * c).sum| ≤ (rs.length : ℚ) * (0.0005 * c) := by
  induction rs with
  | nil => simp
  | cons a t ih =>
      obtain ⟨ha0, ha1⟩ := hd a (List.mem_cons_self a t)
      have htail := ih fun r hr => hd r (List.mem_cons_of_mem _ hr)
      simp only [List.map_cons, List.sum_cons, List.length_cons]
      have hterm : |(a - 0.5) * 0.001 * c| ≤ 0.0005 * c := by
        have h1 : |(a - 0.5) * 0.001 * c| = |a - 0.5| * 0.001 * c := by
          rw [abs_mul, abs_mul, abs_of_nonneg hc]
          norm_num
        have h2 : |a - 0.5| ≤ 0.5 := abs_le.mpr ⟨by linarith, by linarith⟩
        rw [h1]
        nlinarith
      calc |(a - 0.5) * 0.001 * c + (t.map fun r => (r - 0.5) * 0.001 * c).sum|
          ≤ |(a - 0.5) * 0.001 * c| + |(t.map fun r => (r - 0.5) * 0.001 * c).sum| :=
            abs_add _ _
        _ ≤ 0.0005 * c + (t.length : ℚ) * (0.0005 * c) := add_le_add hterm htail
        _ = ((t.length : ℚ) + 1) * (0.0005 * c) := by ring
        _ = ((t.length + 1 : ℕ) : ℚ) * (0.0005 * c) := by push_cast; ring

/-- C5: the sampler draws one sample current + (r − 0.5)·0.001·current per
uniform draw r, reports mean = Σ/N, population variance Σ(b − mean)²/N
(dividing by N, not N − 1), standardDeviation = sqrt(variance) and
standardError = standardDeviation/sqrt(N); consequently, for every nonnegative
current the reported mean is within ±0.05% of the true current. -/
theorem c5_measurement_statistics (current : ℚ) (draws : List ℚ)
    (hc : 0 ≤ current) (hne : draws ≠ [])
    (hd : ∀ r ∈ draws, 0 ≤ r ∧ r < 1) :
    sampleMeasurements current draws
        = draws.map (fun r => current + (r - 0.5) * 0.001 * current) ∧
    (measurementStats current draws).mean
        = (sampleMeasurements current draws).sum / (draws.length : ℚ) ∧
    (measurementStats current draws).variance
        = ((sampleMeasurements current draws).map
            (fun b => (b - (measurementStats current draws).mean) ^ 2)).sum /
            (draws.length : ℚ) ∧
    standardDeviation current draws
        = Real.sqrt ((measurementStats current draws).variance : ℝ) ∧
    standardError current draws
        = standardDeviation current draws / Real.sqrt (draws.length : ℝ) ∧
    |(measurementStats current draws).mean - current| ≤ 0.0005 * current := by
  refine ⟨rfl, rfl, rfl, rfl, rfl, ?_⟩
  have hn : 0 < (draws.length : ℚ) := by
    have h := List.length_pos.mpr hne
    exact_mod_cast h
  have hmean : (measurementStats current draws).mean - current
      = (draws.map fun r => (r - 0.5) * 0.001 * current).sum / (draws.length : ℚ) := by
    show (sampleMeasurements current draws).sum / (draws.length : ℚ) - current = _
    rw [sampleMeasurements_sum]
    field_simp
  rw [hmean, abs_div, abs_of_pos hn, div_le_iff₀ hn]
  calc |(draws.map fun r => (r - 0.5) * 0.001 * current).sum|
      ≤ (draws.length : ℚ) * (0.0005 * current) := noise_sum_abs_le current hc draws hd
    _ = 0.0005 * current * (draws.length : ℚ) := by ring

/-- Witness for C5 on the current 15 μA with two concrete draws. -/
theorem c5_measurement_statistics_witness :
    |(measurementStats 15 [0.5, 0.25]).mean - 15| ≤ 0.0005 * 15 :=
  (c5_measurement_statistics 15 [0.5, 0.25] (by norm_num) (by simp)
    (by norm_num [List.forall_mem_cons])).2.2.2.2.2

/-- C6: updateFrequencyData inserts only when emission holds and no stored
point lies within 1 nm of the new wavelength; a wavelength within 1 nm of a
stored point changes nothing (first write wins); a wavelength at least 1 nm
from every stored point appends exactly one new point, leaving the existing
entries untouched; and the ≥1 nm pairwise-separation invariant is preserved. -/
theorem c6_frequency_point_dedup (physics : PhysicsResult) (tag : String)
    (data : List FreqPoint) :
    (physics.isEmission = false → updateFrequencyData physics tag data = data) ∧
    (physics.isEmission = true →
      (∃ d ∈ data, |d.wavelength - physics.wavelength| < 1) →
      updateFrequencyData physics tag data = data) ∧
    (physics.isEmission = true →
      (∀ d ∈ data, 1 ≤ |d.wavelength - physics.wavelength|) →
      updateFrequencyData physics tag data = data ++ [newFreqPoint physics tag]) ∧
    (List.Pairwise (fun a b => 1 ≤ |a.wavelength - b.wavelength|) data →
      List.Pairwise (fun a b => 1 ≤ |a.wavelength - b.wavelength|)
        (updateFrequencyData physics tag data)) := by
  refine ⟨?_, ?_, ?_, ?_⟩
  · intro h
    rw [updateFrequencyData, if_pos h]
  · intro he hex
    have hany : (data.any fun d => decide (|d.wavelength - physics.wavelength| < 1))
        = true := by
      rw [List.any_eq_true]
      obtain ⟨d, hd, hlt⟩ := hex
      exact ⟨d, hd, decide_eq_true hlt⟩
    rw [updateFrequencyData, if_neg (by simp [he]), if_pos hany]
  · intro he hall
    have hany : ¬ (data.any fun d => decide (|d.wavelength - physics.wavelength| < 1))
        = true := by
      rw [List.any_eq_true]
      rintro ⟨d, hd, hlt⟩
      exact absurd (of_decide_eq_true hlt) (not_lt.mpr (hall d hd))
    rw [updateFrequencyData, if_neg (by simp [he]), if_neg hany]
  · intro hpw
    rw [updateFrequencyData]
    by_cases h1 : physics.isEmission = false
    · rw [if_pos h1]; exact hpw
    · rw [if_neg h1]
      by_cases h2 : (data.any fun d => decide (|d.wavelength - physics.wavelength| < 1))
          = true
      · rw [if_pos h2]; exact hpw
      · rw [if_neg h2, List.pairwise_append]
        refine ⟨hpw, by simp, ?_⟩
        intro a ha b hb
        rw [List.mem_singleton] at hb
        subst hb
        have hall : ∀ d ∈ data, ¬ |d.wavelength - physics.wavelength| < 1 := by
          intro d hd hlt
          exact h2 (List.any_eq_true.mpr ⟨d, hd, decide_eq_true hlt⟩)
        exact not_lt.mp (hall a ha)

/-- Witness for C6: Cesium/blue physics inserts into the empty collection and
does not insert a second time at the same wavelength. -/
theorem c6_frequency_point_dedup_witness :
    updateFrequencyData bluePhysics "blue" [] = [newFreqPoint bluePhysics "blue"] ∧
    updateFrequencyData bluePhysics "blue" [newFreqPoint bluePhysics "blue"]
        = [newFreqPoint bluePhysics "blue"] := by
  have he : bluePhysics.isEmission = true := by
    rw [bluePhysics, calculatePhysics_isEmission]
    norm_num [getCurrentWavelengthData, filters]
  constructor
  · exact (c6_frequency_point_dedup bluePhysics "blue" []).2.2.1 he (by simp)
  · exact (c6_frequency_point_dedup bluePhysics "blue"
      [newFreqPoint bluePhysics "blue"]).2.1 he
      ⟨newFreqPoint bluePhysics "blue", by simp, by simp [newFreqPoint]⟩

/-- C7 counterexample: Cesium (φ = 2.10 eV) under the orange filter
(photon energy 2.075 eV) has stoppingPotential = 0, and at the forward voltage
V = 1 the current is 0, not the 15 μA saturation value the claimed step
function would give. -/
theorem c7_zero_stopping_counterexample :
    (calculatePhysics 2.10 (.filter .orange) 1 0.5).stoppingPotential = 0 ∧
    (calculatePhysics 2.10 (.filter .orange) 1 0.5).current = 0 ∧
    ¬ (calculatePhysics 2.10 (.filter .orange) 1 0.5).current = 15 := by
  have hsp : (calculatePhysics 2.10 (.filter .orange) 1 0.5).stoppingPotential = 0 := by
    rw [calculatePhysics_stoppingPotential]
    norm_num [getCurrentWavelengthData, filters]
  have hcur : (calculatePhysics 2.10 (.filter .orange) 1 0.5).current = 0 := by
    norm_num [calculatePhysics, getCurrentWavelengthData, filters]
  exact ⟨hsp, hcur, by rw [hcur]; norm_num⟩

/-- C7 (amended): the reverse-bias ramp division is reached only under
conditions forcing stoppingPotential > 0; when stoppingPotential = 0 there is
no emission and the current is 0 at EVERY voltage (the computation never
reaches the saturation branch); and the current is always a well-defined
nonnegative rational — no NaN/Infinity can arise. -/
theorem c7_division_guard_amended (wf : ℚ) (light : LightSource) (voltage rand : ℚ)
    (hr0 : 0 ≤ rand) (_hr1 : rand < 1) :
    ((calculatePhysics wf light voltage rand).isEmission = true →
      -(calculatePhysics wf light voltage rand).stoppingPotential ≤ voltage →
      voltage < 0 →
      0 < (calculatePhysics wf light voltage rand).stoppingPotential) ∧
    ((calculatePhysics wf light voltage rand).stoppingPotential = 0 →
      (calculatePhysics wf light voltage rand).isEmission = false ∧
      (calculatePhysics wf light voltage rand).current = 0) ∧
    0 ≤ (calculatePhysics wf light voltage rand).current := by
  have hemission_pos : (calculatePhysics wf light voltage rand).isEmission = true →
      0 < (calculatePhysics wf light voltage rand).stoppingPotential := by
    intro he
    have hlt : wf < (getCurrentWavelengthData light).energy := by
      have h := calculatePhysics_isEmission wf light voltage rand
      rw [he] at h
      exact of_decide_eq_true h.symm
    rw [calculatePhysics_stoppingPotential]
    exact lt_of_lt_of_le (sub_pos.mpr hlt) (le_max_right 0 _)
  refine ⟨fun he _ _ => hemission_pos he, ?_, ?_⟩
  · intro hsp
    have hfalse : (calculatePhysics wf light voltage rand).isEmission = false := by
      cases hbool : (calculatePhysics wf light voltage rand).isEmission
      · rfl
      · exact absurd hsp (ne_of_gt (hemission_pos hbool))
    refine ⟨hfalse, ?_⟩
    rw [calculatePhysics_current_eq_raw, hfalse, rawCurrent_def,
      if_neg fun h => Bool.false_ne_true h.1, zero_mul]
  · rw [calculatePhysics_current_eq_raw]
    have hjit : 0 ≤ 1 + (rand - 0.5) * 0.001 := by nlinarith
    have hraw : 0 ≤ rawCurrent (calculatePhysics wf light voltage rand).isEmission
        (calculatePhysics wf light voltage rand).stoppingPotential voltage := by
      rw [rawCurrent_def]
      split_ifs with h1 h2
      · norm_num
      · exact mul_nonneg (by norm_num) (le_max_left 0 _)
      · exact le_refl 0
    exact mul_nonneg hraw hjit

/-- Witness for C7 (amended): Cesium under the orange filter at V = −1. -/
theorem c7_division_guard_amended_witness :
    ((calculatePhysics 2.10 (.filter .orange) (-1) 0.5).isEmission = false ∧
      (calculatePhysics 2.10 (.filter .orange) (-1) 0.5).current = 0) ∧
    0 ≤ (calculatePhysics 2.10 (.filter .orange) (-1) 0.5).current := by
  have h := c7_division_guard_amended 2.10 (.filter .orange) (-1) 0.5 (by norm_num)
    (by norm_num)
  have hsp : (calculatePhysics 2.10 (.filter .orange) (-1) 0.5).stoppingPotential = 0 := by
    rw [calculatePhysics_stoppingPotential]
    norm_num [getCurrentWavelengthData, filters]
  exact ⟨h.2.1 hsp, h.2.2⟩

/-- C9: in an exported row the Work_Function_eV, Frequency_Hz, Photon_Energy_eV
and Stopping_Potential_V columns are recomputed from the material, light source
and voltage selected at export time — hence identical for any two records and
any random draws — while Timestamp, Material, Filter, Wavelength_nm,
Applied_Voltage_V, Current_microA, Standard_Error_microA and
Measurements_Count are taken from the stored record; the export emits one such
row per stored record, in order. -/
theorem c9_export_recomputed_columns (st : LabState) (rand : ℕ → ℚ)
    (physicsRand otherRand : ℚ) (record otherRecord : MeasurementRecord) :
    (exportRow st physicsRand record).workFunction = st.currentMaterial.workFunction ∧
    (exportRow st physicsRand record).frequency
        = (getCurrentWavelengthData st.light).frequency ∧
    (exportRow st physicsRand record).photonEnergy
        = (getCurrentWavelengthData st.light).energy ∧
    (exportRow st physicsRand record).stoppingPotential
        = (calculatePhysics st.currentMaterial.workFunction st.light st.voltage
            physicsRand).stoppingPotential ∧
    (exportRow st physicsRand record).workFunction
        = (exportRow st otherRand otherRecord).workFunction ∧
    (exportRow st physicsRand record).frequency
        = (exportRow st otherRand otherRecord).frequency ∧
    (exportRow st physicsRand record).photonEnergy
        = (exportRow st otherRand otherRecord).photonEnergy ∧
    (exportRow st physicsRand record).stoppingPotential
        = (exportRow st otherRand otherRecord).stoppingPotential ∧
    (exportRow st physicsRand record).timestamp = record.timestamp ∧
    (exportRow st physicsRand record).material = record.material ∧
    (exportRow st physicsRand record).filter = record.filter ∧
    (exportRow st physicsRand record).wavelength = record.wavelength ∧
    (exportRow st physicsRand record).appliedVoltage = record.voltage ∧
    (exportRow st physicsRand record).current = record.current ∧
    (exportRow st physicsRand record).standardError = record.standardError ∧
    (exportRow st physicsRand record).measurementsCount = record.measurements ∧
    exportLaboratoryData st rand
        = st.experimentData.enum.map (fun p => exportRow st (rand p.1) p.2) :=
  ⟨rfl, rfl, rfl, rfl, rfl, rfl, rfl, rfl, rfl, rfl, rfl, rfl, rfl, rfl, rfl, rfl, rfl⟩

/-- C10: when no experiment is active, takePrecisionMeasurement returns the
state unchanged: experimentData, ivData, frequencyData and measurementCount
all keep their prior values and no record is created. -/
theorem c10_inactive_measurement_frame (st : LabState) (physicsRand : ℚ)
    (rand : ℕ → ℚ) (timestamp : ℕ) (h : st.isExperimentActive = false) :
    takePrecisionMeasurement st physicsRand rand timestamp = st ∧
    (takePrecisionMeasurement st physicsRand rand timestamp).experimentData
        = st.experimentData ∧
    (takePrecisionMeasurement st physicsRand rand timestamp).ivData = st.ivData ∧
    (takePrecisionMeasurement st physicsRand rand timestamp).frequencyData
        = st.frequencyData ∧
    (takePrecisionMeasurement st physicsRand rand timestamp).measurementCount
        = st.measurementCount := by
  have hmain : takePrecisionMeasurement st physicsRand rand timestamp = st := by
    unfold takePrecisionMeasurement
    rw [if_pos h]
  exact ⟨hmain, by rw [hmain], by rw [hmain], by rw [hmain], by rw [hmain]⟩

/-- Witness for C10 on a concrete inactive state. -/
theorem c10_inactive_measurement_frame_witness :
    takePrecisionMeasurement inactiveState 0.5 (fun _ => 0.5) 0 = inactiveState ∧
    (takePrecisionMeasurement inactiveState 0.5 (fun _ => 0.5) 0).experimentData
        = inactiveState.experimentData ∧
    (takePrecisionMeasurement inactiveState 0.5 (fun _ => 0.5) 0).ivData
        = inactiveState.ivData ∧
    (takePrecisionMeasurement inactiveState 0.5 (fun _ => 0.5) 0).frequencyData
        = inactiveState.frequencyData ∧
    (takePrecisionMeasurement inactiveState 0.5 (fun _ => 0.5) 0).measurementCount
        = inactiveState.measurementCount :=
  c10_inactive_measurement_frame inactiveState 0.5 (fun _ => 0.5) 0 rfl

end NivPhoto
